import Mathlib

/-!
Verification development for the Sustainable-Energy-Systems repository.

The Python sources are shallowly embedded over exact rational arithmetic:
float values become rationals, the float value inf becomes the value none of
an Option type, and IEEE NaN (which a pipeline can produce through inf/inf)
also becomes none of an Option type where noted.  Fallible remote calls are
embedded as functions of an abstract outcome value.  Embedded sources:
tools.py, models.py, data_connectors.py, recommender.py,
feature_transition_generation.py, eia_client.py, nrel_client.py.
-/

namespace SES

/-- Python truthiness fallback (x or d) for an optional float x: the value d
is taken when x is None and also when x is the falsy float 0.0. -/
def pyOrOpt (x : Option ℚ) (d : ℚ) : ℚ :=
  match x with
  | none => d
  | some v => if v = 0 then d else v

/-- Python truthiness fallback (x or d) for a plain float. -/
def pyOrQ (x d : ℚ) : ℚ := if x = 0 then d else x

/-- Round to the nearest integer with ties to even, the rounding of the
Python builtin round. -/
def rnearestEven (x : ℚ) : ℤ :=
  let f : ℤ := ⌊x⌋
  let frac : ℚ := x - f
  if frac < 1/2 then f
  else if frac > 1/2 then f + 1
  else if f % 2 = 0 then f else f + 1

/-- Python round(x, 1): round to one decimal place, ties to even. -/
def pyRound1 (x : ℚ) : ℚ := (rnearestEven (10 * x) : ℚ) / 10

/-- Clip a rational to the interval from 0 to 1, as clip with lower 0 and
upper 1 does in numpy and pandas. -/
def clip01 (x : ℚ) : ℚ := min 1 (max 0 x)

/-- Python float modulo with the positive modulus 24, used on the charging
clock of ev_tou_cost. -/
def qmod24 (h : ℚ) : ℚ := h - 24 * ⌊h / 24⌋

/-! ### tools.py: EV time-of-use charging cost -/

/-- One tariff block of tools.ev_tou_cost: ((start_hour, end_hour), price). -/
abbrev TariffBlock := (ℤ × ℤ) × ℚ

/-- The inner for-loop of ev_tou_cost: the first block whose half-open hour
span contains h mod 24 (the loop breaks at the first match). -/
def matchBlock (blocks : List TariffBlock) (hm : ℚ) : Option TariffBlock :=
  blocks.find? (fun b => decide ((b.1.1 : ℚ) ≤ hm ∧ hm < (b.1.2 : ℚ)))

/-- The mutable state of the while-loop of ev_tou_cost. -/
structure EvState where
  h : ℚ
  remaining : ℚ
  cost : ℚ
  deriving DecidableEq, Repr, Inhabited

/-- One iteration of the while-loop body of tools.ev_tou_cost. -/
def evStep (chargerKw : ℚ) (blocks : List TariffBlock) (s : EvState) : EvState :=
  match matchBlock blocks (qmod24 s.h) with
  | some b =>
      let use := min (1/4) s.remaining
      { h := s.h + 1/4, remaining := s.remaining - use,
        cost := s.cost + b.2 * chargerKw * use }
  | none => { s with h := s.h + 1/4 }

/-- The while-loop of tools.ev_tou_cost with an explicit fuel bound; the
result none means the fuel ran out with the loop guard still true, so the
Python loop would still be running after that many iterations. -/
def evLoop (chargerKw : ℚ) (blocks : List TariffBlock) : ℕ → EvState → Option ℚ
  | 0, s => if s.remaining > 1/1000000000 then none else some s.cost
  | n + 1, s =>
      if s.remaining > 1/1000000000 then
        evLoop chargerKw blocks n (evStep chargerKw blocks s)
      else some s.cost

/-- tools.ev_tou_cost, the fuel argument bounding the number of loop
iterations the embedding is allowed to take. -/
def ev_tou_cost (fuel : ℕ) (kwhNeeded : ℚ) (startHour : ℤ) (chargerKw : ℚ)
    (blocks : List TariffBlock) : Option ℚ :=
  evLoop chargerKw blocks fuel
    { h := (startHour : ℚ), remaining := kwhNeeded / max chargerKw (1/1000000000), cost := 0 }

/-! ### models.py and data_connectors.py -/

/-- models.Site, restricted to the fields the embedded pages read. -/
structure Site where
  lat : Option ℚ
  lon : Option ℚ
  building_type : String
  annual_electricity_kwh : Option ℚ
  deriving DecidableEq, Repr, Inhabited

/-- models.ScenarioInput, restricted to the fields the embedded pages read. -/
structure ScenarioInput where
  site : Site
  elec_rate_usd_per_kwh : ℚ
  gas_rate_usd_per_therm : ℚ
  discount_rate : ℚ
  analysis_years : ℕ
  grid_emissions_kgco2e_per_kwh : ℚ
  deriving DecidableEq, Repr, Inhabited

/-- DataConnectors.solar_resource: a stubbed constant lookup; only the
GHI_kWhm2_day entry is read by the embedded code. -/
def solar_resource_ghi (_lat _lon : ℚ) : ℚ := 42/10

/-! ### recommender.py -/

/-- recommender.pv_energy_yield_kw with the default kwh_per_kw_year = None:
the rule-of-thumb 300 times GHI. -/
def pv_energy_yield_kw (lat lon systemKwdc : ℚ) : ℚ :=
  systemKwdc * (300 * solar_resource_ghi lat lon)

/-- recommender.pv_capex_usd at the default 1800 USD per kW. -/
def pv_capex_usd (systemKwdc : ℚ) : ℚ := systemKwdc * 1800

/-- recommender.simple_payback; none models float inf. -/
def simple_payback (capex savings : ℚ) : Option ℚ :=
  if savings > 0 then some (capex / savings) else none

/-- recommender.lcoe; none models float inf (annual_gen ≤ 0).  In Python the
crf denominator (1+d)^y - 1 raises ZeroDivisionError when it is zero;
rational division returns 0 there, and theorems quantifying over scenarios
carry the side condition (1+d)^y different from 1. -/
def lcoe (capex annualOm annualGen discount : ℚ) (years : ℕ) : Option ℚ :=
  let crf := discount * (1 + discount) ^ years / ((1 + discount) ^ years - 1)
  let aac := capex * crf + annualOm
  if annualGen ≤ 0 then none else some (aac / annualGen)

/-- One row assembled by Recommender.score_options; the LCOE column stores
none both for float inf and for the np.nan the non-PV rows carry (that
column is never read downstream). -/
structure OptRow where
  opt : String
  category : String
  capex_usd : ℚ
  annual_gen_kwh : ℚ
  annual_savings_usd : ℚ
  simple_payback_yr : Option ℚ
  lcoe_usd_per_kwh : Option ℚ
  co2e_reduction_tpy : ℚ
  practicality : ℚ
  deriving DecidableEq, Repr, Inhabited

/-- The effective annual load of Recommender.score_options:
scen.site.annual_electricity_kwh or 10000. -/
def annualKwhOf (scen : ScenarioInput) : ℚ :=
  pyOrOpt scen.site.annual_electricity_kwh 10000

/-- The heuristic PV system size of Recommender.score_options:
max(1.0, round(annual_kwh / 1400, 1)). -/
def pvSizeKw (scen : ScenarioInput) : ℚ :=
  max 1 (pyRound1 (annualKwhOf scen / 1400))

/-- The Solar PV row of Recommender.score_options (the option label drops
the interpolated system size). -/
def pvRowOf (scen : ScenarioInput) : OptRow :=
  let annual_kwh := annualKwhOf scen
  let pv_size_kw := pvSizeKw scen
  let lat := pyOrOpt scen.site.lat (423/10)
  let lon := pyOrOpt scen.site.lon (-831/10)
  let pv_gen := pv_energy_yield_kw lat lon pv_size_kw
  let pv_capex := pv_capex_usd pv_size_kw
  let pv_om := 15/1000 * pv_capex
  let rate := scen.elec_rate_usd_per_kwh
  let annual_savings := min pv_gen annual_kwh * rate
  let co2e_red := min pv_gen annual_kwh * scen.grid_emissions_kgco2e_per_kwh
  { opt := "Solar PV", category := "generation", capex_usd := pv_capex,
    annual_gen_kwh := pv_gen, annual_savings_usd := annual_savings,
    simple_payback_yr := simple_payback pv_capex annual_savings,
    lcoe_usd_per_kwh := lcoe pv_capex pv_om pv_gen scen.discount_rate scen.analysis_years,
    co2e_reduction_tpy := co2e_red / 1000, practicality := 8/10 }

/-- The efficiency row of Recommender.score_options. -/
def effRowOf (scen : ScenarioInput) : OptRow :=
  let annual_kwh := annualKwhOf scen
  let rate := scen.elec_rate_usd_per_kwh
  let eff_capex := 5/100 * pv_capex_usd (pvSizeKw scen)
  let eff_savings := 8/100 * annual_kwh * rate
  { opt := "Efficiency: LED + HVAC tune-up", category := "efficiency",
    capex_usd := eff_capex, annual_gen_kwh := 0, annual_savings_usd := eff_savings,
    simple_payback_yr := simple_payback eff_capex eff_savings,
    lcoe_usd_per_kwh := none,
    co2e_reduction_tpy := 8/100 * annual_kwh * scen.grid_emissions_kgco2e_per_kwh / 1000,
    practicality := 95/100 }

/-- The heat-pump water-heater row of Recommender.score_options (appended
only for residential sites). -/
def hpwhRowOf (scen : ScenarioInput) : OptRow :=
  let rate := scen.elec_rate_usd_per_kwh
  { opt := "Heat Pump Water Heater", category := "utilities",
    capex_usd := 2000, annual_gen_kwh := 0,
    annual_savings_usd := 1200 * rate,
    simple_payback_yr := simple_payback 2000 (1200 * rate),
    lcoe_usd_per_kwh := none,
    co2e_reduction_tpy := 1200 * scen.grid_emissions_kgco2e_per_kwh / 1000,
    practicality := 9/10 }

/-- The EV-replacement transport row of Recommender.score_options; the
shared classroom constants are inlined (12000 mi/yr, 25 mpg, 3.5 USD/gal,
8.89 kg/gal, 0.30 kWh/mi, 10000 USD incremental cost). -/
def evRowOf (scen : ScenarioInput) : OptRow :=
  let rate := scen.elec_rate_usd_per_kwh
  let grid_ci := scen.grid_emissions_kgco2e_per_kwh
  let gal_per_year : ℚ := 12000 / 25
  let cost_gas := gal_per_year * (7/2)
  let co2_gas_kg := gal_per_year * (889/100)
  let kwh_ev : ℚ := 12000 * (3/10)
  let cost_ev := kwh_ev * rate
  let co2_ev_kg := kwh_ev * grid_ci
  let ev_savings := max 0 (cost_gas - cost_ev)
  let ev_co2_saved_kg := max 0 (co2_gas_kg - co2_ev_kg)
  { opt := "Transport: replace one gasoline car with a battery EV",
    category := "transport", capex_usd := 10000, annual_gen_kwh := 0,
    annual_savings_usd := ev_savings,
    simple_payback_yr := simple_payback 10000 ev_savings,
    lcoe_usd_per_kwh := none,
    co2e_reduction_tpy := ev_co2_saved_kg / 1000, practicality := 7/10 }

/-- The mode-shift transport row of Recommender.score_options: a quarter of
12000 mi/yr shifted, 80 percent of the gasoline cost recovered, 500 USD of
capex. -/
def modeRowOf (_scen : ScenarioInput) : OptRow :=
  let gal_saved : ℚ := 12000 * (1/4) / 25
  let cost_saved_mode := gal_saved * (7/2) * (8/10)
  let co2_saved_mode_kg := gal_saved * (889/100)
  { opt := "Transport: shift ~25% of trips to transit / walking / biking",
    category := "transport", capex_usd := 500, annual_gen_kwh := 0,
    annual_savings_usd := cost_saved_mode,
    simple_payback_yr := simple_payback 500 cost_saved_mode,
    lcoe_usd_per_kwh := none,
    co2e_reduction_tpy := co2_saved_mode_kg / 1000, practicality := 85/100 }

/-- The candidate rows Recommender.score_options assembles before scoring,
in insertion order; the water-heater row appears only for residential
sites. -/
def scoreOptionsRows (scen : ScenarioInput) : List OptRow :=
  pvRowOf scen :: effRowOf scen ::
    ((if scen.site.building_type = "residential" then [hpwhRowOf scen] else []) ++
      [evRowOf scen, modeRowOf scen])

/-- pandas Series.max over a rational column (0 on the empty column, which
never arises in the embedded pipelines). -/
def colMax : List ℚ → ℚ
  | [] => 0
  | [x] => x
  | x :: xs => max x (colMax xs)

/-- pandas Series.min over a rational column (0 on the empty column, which
never arises in the embedded pipelines). -/
def colMin : List ℚ → ℚ
  | [] => 0
  | [x] => x
  | x :: xs => min x (colMin xs)

/-- pandas Series.min over a column whose entries may be float inf (none);
the result is none exactly when every entry is infinite or the column is
empty. -/
def colMinInf : List (Option ℚ) → Option ℚ
  | [] => none
  | none :: xs => colMinInf xs
  | some v :: xs =>
      match colMinInf xs with
      | none => some v
      | some m => some (min v m)

/-- The norm_min helper of Recommender.score_options applied entrywise:
col_min / x after x = 0 is replaced by NaN.  A none input is float inf, a
none output is NaN (inf/inf, or division by the NaN that replaced a zero). -/
def norm_min_entry (colmin x : Option ℚ) : Option ℚ :=
  match x with
  | none =>
      match colmin with
      | some _ => some 0
      | none => none
  | some v =>
      if v = 0 then none
      else
        match colmin with
        | some m => some (m / v)
        | none => none

/-- The norm_max helper of Recommender.score_options applied entrywise:
(x - col_min) / (col_max - col_min + 1e-9). -/
def norm_max_entry (colmin colmax x : ℚ) : ℚ :=
  (x - colmin) / (colmax - colmin + 1/1000000000)

/-- A row of the frame Recommender.score_options returns: the original row
plus the four normalized sub-score columns and the composite MCDA score;
none in score_payback or mcda_score models NaN. -/
structure ScoredRow where
  row : OptRow
  score_payback : Option ℚ
  score_savings : ℚ
  score_co2e : ℚ
  score_practicality : ℚ
  mcda_score : Option ℚ
  deriving DecidableEq, Repr, Inhabited

/-- The fixed MCDA weight preset of Recommender.score_options:
payback 0.30, savings 0.25, CO2 0.25, practicality 0.20. -/
def mcdaWeights : ℚ × ℚ × ℚ × ℚ := (3/10, 1/4, 1/4, 1/5)

/-- The normalization and scoring step of Recommender.score_options.  The
fillna calls of the source are identities here: the payback column carries
inf (not NaN) for non-positive savings, and the savings, CO2 and
practicality columns are plain numbers by construction. -/
def scoreRows (rows : List OptRow) : List ScoredRow :=
  let minp := colMinInf (rows.map (·.simple_payback_yr))
  let sCol := rows.map (·.annual_savings_usd)
  let cCol := rows.map (·.co2e_reduction_tpy)
  let pCol := rows.map (·.practicality)
  rows.map (fun r =>
    let sp := norm_min_entry minp r.simple_payback_yr
    let ss := norm_max_entry (colMin sCol) (colMax sCol) r.annual_savings_usd
    let sc := norm_max_entry (colMin cCol) (colMax cCol) r.co2e_reduction_tpy
    let spr := norm_max_entry (colMin pCol) (colMax pCol) r.practicality
    { row := r, score_payback := sp, score_savings := ss, score_co2e := sc,
      score_practicality := spr,
      mcda_score := sp.map (fun p =>
        mcdaWeights.1 * p + mcdaWeights.2.1 * ss + mcdaWeights.2.2.1 * sc +
          mcdaWeights.2.2.2 * spr) })

/-- Descending comparison on an optional score column; none (NaN) sorts
last, as the pandas default na_position has it. -/
def optGeB (a b : Option ℚ) : Bool :=
  match a, b with
  | some x, some y => decide (y ≤ x)
  | some _, none => true
  | none, some _ => false
  | none, none => true

/-- The row ordering induced by a score key, descending with NaN last. -/
def keyGe {α : Type} (key : α → Option ℚ) (a b : α) : Prop :=
  optGeB (key a) (key b) = true

instance {α : Type} (key : α → Option ℚ) : DecidableRel (keyGe key) :=
  fun a b => Bool.decEq (optGeB (key a) (key b)) true

/-- pandas DataFrame.sort_values on one key column with ascending False.
pandas composes a numpy argsort of the key column with two reversals; on
the tables built here (at most six rows, far below the 16-element cutoff
beneath which numpy introsort runs a plain, stable insertion sort) the net
effect is exactly a stable descending sort, which is what we embed. -/
def sortValuesDesc {α : Type} (key : α → Option ℚ) (rows : List α) : List α :=
  rows.insertionSort (keyGe key)

/-- Recommender.score_options: assemble the candidate rows, score them and
sort by the composite score, descending. -/
def score_options (scen : ScenarioInput) : List ScoredRow :=
  sortValuesDesc (·.mcda_score) (scoreRows (scoreOptionsRows scen))

/-! ### feature_transition_generation.py -/

/-- The classroom fallback estimate of _pv_kwh_year: 300 GHI per kWdc-year
adjusted for tilt and shading. -/
def pvFallbackKwh (ghi kwdc tiltDeg shadingPct : ℚ) : ℚ :=
  kwdc * (300 * ghi) * (1 - min (1/2) (|tiltDeg - 30| * (1/100))) *
    max 0 (1 - shadingPct / 100)

/-- feature_transition_generation._pv_kwh_year.  The remote PVWatts outcome
is an oracle argument: some ac is a successful call; none covers a missing
key and every failed call, and both fall back to the classroom rule of
thumb (DataConnectors.solar_resource yields the same constant GHI as the
no-location default). -/
def pv_kwh_year (lat lon : Option ℚ) (pvwatts : Option ℚ)
    (kwdc tiltDeg shadingPct : ℚ) : ℚ × Bool :=
  match lat, lon with
  | some la, some lo =>
      match pvwatts with
      | some ac => (ac, true)
      | none => (pvFallbackKwh (solar_resource_ghi la lo) kwdc tiltDeg shadingPct, false)
  | _, _ => (pvFallbackKwh (42/10) kwdc tiltDeg shadingPct, false)

/-- feature_transition_generation._wind_kwh_year. -/
def wind_kwh_year (acres mwPerKm2 cf : ℚ) : ℚ :=
  acres / (247105/1000) * mwPerKm2 * 1000 * 8760 * cf

/-- feature_transition_generation._goal_weights: the weights for
(savings, CO2, payback) keyed by the stated goal. -/
def goal_weights (goal : String) : ℚ × ℚ × ℚ :=
  if goal = "Lower my bill" then (6/10, 2/10, 2/10)
  else if goal = "Maximize CO₂ reduction" then (3/10, 6/10, 1/10)
  else (4/10, 4/10, 2/10)

/-- One candidate row assembled by _rank_options before scoring (the
technology labels drop interpolated numbers). -/
structure GenRow where
  technology : String
  typ : String
  capex_usd : ℚ
  annual_kwh : ℚ
  load_covered_pct : ℚ
  annual_savings_usd : ℚ
  co2e_reduction_tpy : ℚ
  deriving DecidableEq, Repr, Inhabited

/-- The arguments of _rank_options. -/
structure RankParams where
  category : String
  scen : ScenarioInput
  tilt : ℚ
  shading : ℚ
  roof_area_m2 : Option ℚ
  wind_acres : Option ℚ
  goal : String
  target_load_pct : ℚ
  wind_density_mw_km2 : ℚ
  wind_cf : ℚ
  pv_rooftop_cost_kw : ℚ
  pv_ground_cost_kw : ℚ
  wind_cost_kw : ℚ
  green_premium_usd_per_kwh : ℚ
  community_solar_discount_frac : ℚ
  pv_losses_pct : ℚ
  deriving DecidableEq, Repr, Inhabited

/-- The effective annual load of _rank_options (the float cast is a
no-op over rationals). -/
def rankAnnualKwh (p : RankParams) : ℚ :=
  pyOrOpt p.scen.site.annual_electricity_kwh 10000

/-- The effective grid intensity of _rank_options:
scen.grid_emissions_kgco2e_per_kwh or 0.38. -/
def rankGrid (p : RankParams) : ℚ :=
  pyOrQ p.scen.grid_emissions_kgco2e_per_kwh (38/100)

/-- The rooftop system size of _rank_options: 0.2 kW per m2 of supplied
roof area, else max(1.0, round(annual_kwh / 1400, 1)). -/
def kwRoofOf (p : RankParams) : ℚ :=
  match p.roof_area_m2 with
  | some a =>
      if a > 0 then max 0 (a * (2/10)) else max 1 (pyRound1 (rankAnnualKwh p / 1400))
  | none => max 1 (pyRound1 (rankAnnualKwh p / 1400))

/-- The rooftop PV annual yield of _rank_options (PVWatts oracle first,
classroom fallback otherwise). -/
def rankPvKwh (p : RankParams) (pvwRoof : Option ℚ) : ℚ :=
  (pv_kwh_year p.scen.site.lat p.scen.site.lon pvwRoof (kwRoofOf p) p.tilt p.shading).1

/-- The usable rooftop PV energy of _rank_options, capped at the target
share of the annual load. -/
def rankPvUseful (p : RankParams) (pvwRoof : Option ℚ) : ℚ :=
  min (rankPvKwh p pvwRoof) (rankAnnualKwh p * (p.target_load_pct / 100))

/-- The rooftop PV row of _rank_options (the technology label drops the
interpolated size). -/
def roofRowOf (p : RankParams) (pvwRoof : Option ℚ) : GenRow :=
  { technology := "Rooftop PV", typ := "On-site solar",
    capex_usd := kwRoofOf p * p.pv_rooftop_cost_kw,
    annual_kwh := rankPvKwh p pvwRoof,
    load_covered_pct := rankPvUseful p pvwRoof / rankAnnualKwh p * 100,
    annual_savings_usd := rankPvUseful p pvwRoof * p.scen.elec_rate_usd_per_kwh,
    co2e_reduction_tpy := rankPvUseful p pvwRoof * rankGrid p / 1000 }

/-- The ground or carport PV rows of _rank_options: present only for the
Business, Community and City categories when the extra sizing is positive. -/
def groundRowsOf (p : RankParams) (pvwRoof pvwGround : Option ℚ) : List GenRow :=
  if p.category = "Business" ∨ p.category = "Community" ∨ p.category = "City" then
    let annual_kwh := rankAnnualKwh p
    let extra_kw := max 0 (annual_kwh / 1000 - kwRoofOf p)
    if extra_kw > 0 then
      let extra_kwh :=
        (pv_kwh_year p.scen.site.lat p.scen.site.lon pvwGround extra_kw p.tilt p.shading).1
      let extra_useful_kwh :=
        min extra_kwh
          (max 0 (annual_kwh * (p.target_load_pct / 100) - rankPvUseful p pvwRoof))
      [{ technology := "Ground/Carport PV", typ := "On-site solar",
         capex_usd := extra_kw * p.pv_ground_cost_kw, annual_kwh := extra_kwh,
         load_covered_pct := extra_useful_kwh / annual_kwh * 100,
         annual_savings_usd := extra_useful_kwh * p.scen.elec_rate_usd_per_kwh,
         co2e_reduction_tpy := extra_useful_kwh * rankGrid p / 1000 }]
    else []
  else []

/-- The community-solar subscription row of _rank_options. -/
def csRowOf (p : RankParams) : GenRow :=
  let annual_kwh := rankAnnualKwh p
  let sub_pct : ℚ :=
    if p.category = "Individual" ∨ p.category = "Business" then 5/10
    else if p.category = "Community" then 4/10
    else 3/10
  let cs_kwh := annual_kwh * sub_pct
  let cs_useful_kwh := cs_kwh * (p.target_load_pct / 100)
  let cs_bill_discount := p.community_solar_discount_frac * p.scen.elec_rate_usd_per_kwh
  { technology := "Community Solar Subscription", typ := "Off-site solar",
    capex_usd := 0, annual_kwh := cs_kwh,
    load_covered_pct := cs_useful_kwh / annual_kwh * 100,
    annual_savings_usd := cs_useful_kwh * cs_bill_discount,
    co2e_reduction_tpy := cs_useful_kwh * rankGrid p / 1000 }

/-- The green-tariff row of _rank_options; its savings are the negated
premium cost. -/
def greenRowOf (p : RankParams) : GenRow :=
  let annual_kwh := rankAnnualKwh p
  let green_pct : ℚ :=
    if p.category = "Individual" ∨ p.category = "Business" then 5/10 else 3/10
  let green_kwh := annual_kwh * green_pct * (p.target_load_pct / 100)
  let green_cost := green_kwh * p.green_premium_usd_per_kwh
  { technology := "Utility Green Power / RECs", typ := "Off-site renewable",
    capex_usd := 0, annual_kwh := green_kwh,
    load_covered_pct := green_kwh / annual_kwh * 100,
    annual_savings_usd := -green_cost,
    co2e_reduction_tpy := green_kwh * rankGrid p / 1000 }

/-- The small-wind rows of _rank_options: present only when land acreage is
supplied and positive. -/
def windRowsOf (p : RankParams) : List GenRow :=
  match p.wind_acres with
  | some acres =>
      if acres > 0 then
        let annual_kwh := rankAnnualKwh p
        let wind_kwh := wind_kwh_year acres p.wind_density_mw_km2 p.wind_cf
        let wind_useful_kwh := min wind_kwh (annual_kwh * (p.target_load_pct / 100))
        let approx_kw := if p.wind_cf > 0 then wind_kwh / (8760 * p.wind_cf) else 0
        [{ technology := "Onshore Wind", typ := "On-site wind",
           capex_usd := approx_kw * p.wind_cost_kw, annual_kwh := wind_kwh,
           load_covered_pct := wind_useful_kwh / annual_kwh * 100,
           annual_savings_usd := wind_useful_kwh * p.scen.elec_rate_usd_per_kwh,
           co2e_reduction_tpy := wind_useful_kwh * rankGrid p / 1000 }]
      else []
  | none => []

/-- The candidate generation rows _rank_options assembles, in insertion
order.  The two PVWatts oracle arguments stand for the remote outcomes of
the rooftop and of the ground call. -/
def rankRows (p : RankParams) (pvwRoof pvwGround : Option ℚ) : List GenRow :=
  roofRowOf p pvwRoof ::
    (groundRowsOf p pvwRoof pvwGround ++ csRowOf p :: greenRowOf p :: windRowsOf p)

/-- A row of the frame _rank_options returns: the generation row plus the
payback column (none = inf) and the goal-weighted composite score. -/
structure RankedRow where
  row : GenRow
  payback_yr : Option ℚ
  score : ℚ
  deriving DecidableEq, Repr, Inhabited

/-- The payback column of _rank_options (np.where on savings > 0):
capex / savings where savings > 0, inf (none) otherwise. -/
def rankPayback (r : GenRow) : Option ℚ :=
  if r.annual_savings_usd > 0 then some (r.capex_usd / r.annual_savings_usd) else none

/-- The divide-by-maximum normalization of the savings column in
_rank_options: entries clipped at 0, divided by the column maximum, the
Python-falsy maximum 0.0 replaced by 1.0. -/
def rankNormSavings (rows : List GenRow) (r : GenRow) : ℚ :=
  max 0 r.annual_savings_usd /
    (if colMax (rows.map (fun x => max 0 x.annual_savings_usd)) = 0 then 1
     else colMax (rows.map (fun x => max 0 x.annual_savings_usd)))

/-- The divide-by-maximum normalization of the CO2 column in _rank_options. -/
def rankNormCo2 (rows : List GenRow) (r : GenRow) : ℚ :=
  max 0 r.co2e_reduction_tpy /
    (if colMax (rows.map (fun x => max 0 x.co2e_reduction_tpy)) = 0 then 1
     else colMax (rows.map (fun x => max 0 x.co2e_reduction_tpy)))

/-- The payback column with inf and 0 replaced by NaN (both become none). -/
def rankPaybackAdj (r : GenRow) : Option ℚ :=
  match rankPayback r with
  | none => none
  | some v => if v = 0 then none else some v

/-- The lower-is-better normalization of the payback column in
_rank_options: the minimum over the non-NaN entries divided by the entry,
clipped to the unit interval, and 0 where the entry is NaN (the np.where on
notna). -/
def rankNormPayback (rows : List GenRow) (r : GenRow) : ℚ :=
  match rankPaybackAdj r with
  | none => 0
  | some v =>
      match colMinInf (rows.map rankPaybackAdj) with
      | some m => clip01 (m / v)
      | none => 0

/-- The scoring tail of _rank_options applied to a candidate table: payback
column, normalizations, goal weights, composite score (the fillna(0) is an
identity over exact rationals). -/
def rankPipeline (goal : String) (rows : List GenRow) : List RankedRow :=
  let w := goal_weights goal
  rows.map (fun r =>
    { row := r, payback_yr := rankPayback r,
      score := w.1 * rankNormSavings rows r + w.2.1 * rankNormCo2 rows r +
        w.2.2 * rankNormPayback rows r })

/-- feature_transition_generation._rank_options (the returned frame; the
pvwatts_used_any flag is not modelled). -/
def rank_options (p : RankParams) (pvwRoof pvwGround : Option ℚ) : List RankedRow :=
  sortValuesDesc (fun r => some r.score) (rankPipeline p.goal (rankRows p pvwRoof pvwGround))

/-! ### eia_client.py and nrel_client.py -/

/-- A price cell of an EIA data record: a numeric value, or a string that
float() cannot parse. -/
inductive PriceCell where
  | num (q : ℚ)
  | nonNum (s : String)
  deriving DecidableEq, Repr

/-- One record of an EIA v2 data payload, restricted to the price field
fetch_retail_price reads; none means the record carries no price key. -/
structure PriceRow where
  price : Option PriceCell
  deriving DecidableEq, Repr

/-- The parts of a decoded EIA v2 JSON payload that _get_v2 inspects (after
the response-wrapper normalization): the total field (absent, present but
not int-parsable, or an integer) and the data records (an absent or empty
data field are both the empty list, both falsy). -/
structure EiaPayload where
  totalField : Option (Option ℤ)
  rows : List PriceRow
  deriving DecidableEq, Repr

/-- Abstracted outcome of the HTTP GET in EIA._get_v2: an exception (network
failure, raise_for_status on a non-2xx non-403 status, or JSON decoding), a
403 response, or a decoded 2xx payload. -/
inductive EiaHttp where
  | exn (msg : String)
  | forbidden
  | okJson (p : EiaPayload)
  deriving DecidableEq, Repr

/-- The total count _get_v2 reads from the payload: int(data.get("total", 0))
with the try/except folding an unparsable value to 0. -/
def eiaTotal (p : EiaPayload) : ℤ :=
  match p.totalField with
  | none => 0
  | some none => 0
  | some (some n) => n

/-- EIA._get_v2 as a function of the configured api key (none and the empty
string are both falsy, hence unavailable) and of the abstract HTTP outcome;
the result pairs the returned payload with last_error (none models Python
None). -/
def eiaGetV2 (apiKey : Option String) (world : EiaHttp) :
    Option EiaPayload × Option String :=
  match apiKey with
  | none => (none, some "No EIA_API_KEY configured (in secrets.toml or environment).")
  | some k =>
      if k = "" then
        (none, some "No EIA_API_KEY configured (in secrets.toml or environment).")
      else
        match world with
        | .exn msg => (none, some ("Exception calling EIA v2: " ++ msg))
        | .forbidden => (none, some "EIA returned 403 Forbidden.")
        | .okJson p =>
            if eiaTotal p = 0 ∨ p.rows.isEmpty then
              (none, some "No records returned from EIA for this selection.")
            else (some p, none)

/-- EIA.fetch_retail_price as a function of the api key and of the abstract
HTTP outcome.  The Except layer models Python exception propagation: the
astype(float) conversion of a price column holding a non-numeric string
raises a ValueError that nothing catches.  On the ok path the pair holds the
returned frame (the data records; none models a None return) and
last_error. -/
def fetch_retail_price (apiKey : Option String) (world : EiaHttp) :
    Except String (Option (List PriceRow) × Option String) :=
  match eiaGetV2 apiKey world with
  | (none, err) => .ok (none, err)
  | (some p, err) =>
      if p.rows.any (fun r =>
          match r.price with
          | some (.nonNum _) => true
          | _ => false) then
        .error "ValueError: could not convert string to float"
      else .ok (some p.rows, err)

/-- Python str.lower over the character list. -/
def pyLower (s : String) : String := ⟨s.data.map Char.toLower⟩

/-- EIA.fetch_series: implemented only for fuel electricity with series
price; every other combination returns None and records last_error. -/
def fetch_series (apiKey : Option String) (world : EiaHttp) (fuel series : String) :
    Except String (Option (List PriceRow) × Option String) :=
  if pyLower fuel = "electricity" ∧ pyLower series = "price" then
    fetch_retail_price apiKey world
  else
    .ok (none, some "fetch_series is only implemented for fuel=electricity, series=price.")

/-- The outputs.ac_annual cell of a PVWatts response: numeric, or a value
float() cannot parse. -/
inductive NrelAc where
  | num (q : ℚ)
  | nonNum (s : String)
  deriving DecidableEq, Repr

/-- The parts of a decoded PVWatts JSON payload that pvwatts_ac_annual
inspects: the errors field (the empty list covers an absent or falsy field)
and the outputs.ac_annual cell (none when missing). -/
structure NrelPayload where
  errs : List String
  acAnnual : Option NrelAc
  deriving DecidableEq, Repr

/-- Abstracted outcome of the HTTP GET in NRELClient.pvwatts_ac_annual. -/
inductive NrelHttp where
  | exn (msg : String)
  | okJson (p : NrelPayload)
  deriving DecidableEq, Repr

/-- NRELClient.pvwatts_ac_annual as a function of the api key and of the
abstract HTTP outcome; every failure inside the try block (including the
float() conversion of a non-numeric ac_annual) is caught and recorded in
last_error. -/
def pvwatts_ac_annual (apiKey : Option String) (world : NrelHttp) :
    Option ℚ × Option String :=
  match apiKey with
  | none => (none, some "No NREL_API_KEY found in secrets or environment.")
  | some k =>
      if k = "" then (none, some "No NREL_API_KEY found in secrets or environment.")
      else
        match world with
        | .exn msg => (none, some ("Exception calling PVWatts: " ++ msg))
        | .okJson p =>
            if p.errs ≠ [] then (none, some (String.intercalate "; " p.errs))
            else
              match p.acAnnual with
              | none => (none, some "PVWatts response missing outputs.ac_annual.")
              | some (.num q) => (some q, none)
              | some (.nonNum s) =>
                  (none, some ("Exception calling PVWatts: could not convert string to float: " ++ s))

/-! ### Concrete inputs used by counterexamples and witnesses -/

/-- A default-flavored scenario: residential site without location or
metered consumption, rate 0.18 USD/kWh, grid intensity 0.38 kg/kWh. -/
def scen0 : ScenarioInput :=
  { site := { lat := none, lon := none, building_type := "residential",
              annual_electricity_kwh := none },
    elec_rate_usd_per_kwh := 18/100, gas_rate_usd_per_therm := 1,
    discount_rate := 7/100, analysis_years := 25,
    grid_emissions_kgco2e_per_kwh := 38/100 }

/-- The end-to-end scenario of the spec: annual load 10000 kWh, rate 0.18,
grid 0.38, no location. -/
def scen1 : ScenarioInput :=
  { site := { lat := none, lon := none, building_type := "residential",
              annual_electricity_kwh := some 10000 },
    elec_rate_usd_per_kwh := 18/100, gas_rate_usd_per_therm := 1,
    discount_rate := 7/100, analysis_years := 25,
    grid_emissions_kgco2e_per_kwh := 38/100 }

/-- The _rank_options arguments of the end-to-end scenario: individual
planning, tilt 27, shading 8, target coverage 80 percent, default costs,
no roof area and no wind land supplied. -/
def p1 : RankParams :=
  { category := "Individual", scen := scen1, tilt := 27, shading := 8,
    roof_area_m2 := none, wind_acres := none, goal := "Balanced",
    target_load_pct := 80, wind_density_mw_km2 := 425/100, wind_cf := 4/10,
    pv_rooftop_cost_kw := 1800, pv_ground_cost_kw := 1500, wind_cost_kw := 1500,
    green_premium_usd_per_kwh := 1/100, community_solar_discount_frac := 1/10,
    pv_losses_pct := 14 }

/-- A degenerate candidate row with zero savings and zero CO2 reduction and
the infinite payback score_options would attach to it. -/
def row8a : OptRow :=
  { opt := "a", category := "generation", capex_usd := 100, annual_gen_kwh := 0,
    annual_savings_usd := 0, simple_payback_yr := none, lcoe_usd_per_kwh := none,
    co2e_reduction_tpy := 0, practicality := 8/10 }

/-- A second degenerate candidate row with a different practicality. -/
def row8b : OptRow :=
  { opt := "b", category := "efficiency", capex_usd := 50, annual_gen_kwh := 0,
    annual_savings_usd := 0, simple_payback_yr := none, lcoe_usd_per_kwh := none,
    co2e_reduction_tpy := 0, practicality := 19/20 }

/-- A degenerate generation row with zero savings and zero CO2 reduction. -/
def row8g : GenRow :=
  { technology := "t", typ := "x", capex_usd := 100, annual_kwh := 0,
    load_covered_pct := 0, annual_savings_usd := 0, co2e_reduction_tpy := 0 }

/-! Basic facts about qmod24. -/

theorem qmod24_nonneg (h : ℚ) : 0 ≤ qmod24 h := by
  have h1 : (⌊h / 24⌋ : ℚ) ≤ h / 24 := Int.floor_le _
  have h24 : (0:ℚ) < 24 := by norm_num
  unfold qmod24
  nlinarith [h1]

theorem qmod24_lt (h : ℚ) : qmod24 h < 24 := by
  have h1 : h / 24 < ⌊h / 24⌋ + 1 := Int.lt_floor_add_one _
  have h24 : (0:ℚ) < 24 := by norm_num
  unfold qmod24
  nlinarith [h1]

/-- A loop step at an hour covered by no tariff block only advances the
clock, leaving remaining energy and accumulated cost unchanged. -/
theorem evStep_uncovered (ch : ℚ) (blocks : List TariffBlock) (s : EvState)
    (hm : matchBlock blocks (qmod24 s.h) = none) :
    evStep ch blocks s = { s with h := s.h + 1/4 } := by
  unfold evStep
  rw [hm]

/-- If no tariff block covers any hour of the day, the while-loop never
finishes from a state whose remaining hours exceed the loop threshold. -/
theorem evLoop_none_of_uncovered (ch : ℚ) (blocks : List TariffBlock)
    (hcov : ∀ t : ℚ, 0 ≤ t → t < 24 → matchBlock blocks t = none) :
    ∀ (fuel : ℕ) (s : EvState), 1/1000000000 < s.remaining →
      evLoop ch blocks fuel s = none := by
  intro fuel
  induction fuel with
  | zero =>
      intro s hs
      simp only [evLoop, if_pos hs]
  | succ n ih =>
      intro s hs
      have hstep : evStep ch blocks s = { s with h := s.h + 1/4 } :=
        evStep_uncovered ch blocks s
          (hcov (qmod24 s.h) (qmod24_nonneg s.h) (qmod24_lt s.h))
      simp only [evLoop, if_pos hs, hstep]
      exact ih _ hs

/-- C6: a loop step of ev_tou_cost whose current hour (mod 24) lies in no
supplied tariff block advances time by 0.25 h leaving remaining energy and
cost unchanged; and whenever the initial hours of charging
kwh_needed / max(charger_kw, 1e-9) exceed the loop threshold 1e-9, a
tariff-block list covering no hour of the day makes the loop run forever
(no fuel bound ever completes it).  The consequent of the original claim is
amended: kwh_needed > 0 alone does not put the initial remaining hours above
the 1e-9 loop threshold when charger_kw is large enough. -/
theorem C6_theorem :
    (∀ (ch : ℚ) (blocks : List TariffBlock) (s : EvState),
        matchBlock blocks (qmod24 s.h) = none →
        evStep ch blocks s = { s with h := s.h + 1/4 }) ∧
    (∀ (kwh : ℚ) (startHour : ℤ) (ch : ℚ) (blocks : List TariffBlock) (fuel : ℕ),
        (∀ t : ℚ, 0 ≤ t → t < 24 → matchBlock blocks t = none) →
        1/1000000000 < kwh / max ch (1/1000000000) →
        ev_tou_cost fuel kwh startHour ch blocks = none) := by
  constructor
  · exact evStep_uncovered
  · intro kwh startHour ch blocks fuel hcov hrem
    exact evLoop_none_of_uncovered ch blocks hcov fuel _ hrem

/-- C6 witness: with an empty tariff list, 30 kWh at a 7 kW charger never
finishes for fuel bound 5, and an uncovered step only moves the clock. -/
theorem C6_witness :
    ev_tou_cost 5 30 22 7 [] = none ∧
    evStep 7 [] ⟨22, 1, 0⟩ = { h := 22 + 1/4, remaining := 1, cost := 0 } :=
  ⟨C6_theorem.2 30 22 7 [] 5 (fun _ _ _ => rfl) (by norm_num [max_def]),
   C6_theorem.1 7 [] ⟨22, 1, 0⟩ rfl⟩

/-- C6 counterexample: the original claim says ev_tou_cost never terminates
for every kwh_needed > 0 once no block covers any hour; yet a positive
kwh_needed of 1e-10 at charger 7 gives initial remaining hours below the
1e-9 loop threshold, so the loop guard is false at once and the call returns
cost 0. -/
theorem C6_counterexample :
    ((1:ℚ)/10000000000 > 0) ∧ ev_tou_cost 3 (1/10000000000) 22 7 [] = some 0 := by
  constructor
  · norm_num
  · norm_num [ev_tou_cost, evLoop, max_def]

set_option maxHeartbeats 1000000 in
/-- C7: charging 30 kWh from hour 22 at 7 kW under a flat 0.14 USD/kWh
tariff over hours 19 to 24 and 0 to 7 costs exactly 30 times 0.14 = 4.20 USD
(the loop finishes within 40 iterations). -/
theorem C7_theorem :
    ev_tou_cost 40 30 22 7 [((19, 24), 7/50), ((0, 7), 7/50)] = some (21/5) := by
  norm_num [ev_tou_cost, evLoop, evStep, matchBlock, qmod24, List.find?]

/-! ### General facts about the column helpers -/

theorem colMax_ge_mem {x : ℚ} : ∀ {l : List ℚ}, x ∈ l → x ≤ colMax l
  | [], h => absurd h (List.not_mem_nil x)
  | [y], h => by
      rcases List.mem_singleton.mp h with rfl
      simp [colMax]
  | y :: z :: t, h => by
      rcases List.mem_cons.mp h with rfl | h2
      · exact le_max_left _ _
      · exact le_trans (colMax_ge_mem h2) (le_max_right _ _)

theorem colMin_le_mem {x : ℚ} : ∀ {l : List ℚ}, x ∈ l → colMin l ≤ x
  | [], h => absurd h (List.not_mem_nil x)
  | [y], h => by
      rcases List.mem_singleton.mp h with rfl
      simp [colMin]
  | y :: z :: t, h => by
      rcases List.mem_cons.mp h with rfl | h2
      · exact min_le_left _ _
      · exact le_trans (min_le_right _ _) (colMin_le_mem h2)

theorem norm_max_entry_bounds {l : List ℚ} {x : ℚ} (hx : x ∈ l) :
    0 ≤ norm_max_entry (colMin l) (colMax l) x ∧
      norm_max_entry (colMin l) (colMax l) x ≤ 1 := by
  have h1 := colMin_le_mem hx
  have h2 := colMax_ge_mem hx
  have hd : (0:ℚ) < colMax l - colMin l + 1/1000000000 := by linarith
  unfold norm_max_entry
  constructor
  · exact div_nonneg (by linarith) hd.le
  · rw [div_le_one hd]
    linarith

theorem colMinInf_none_cons (xs : List (Option ℚ)) :
    colMinInf (none :: xs) = colMinInf xs := by
  simp [colMinInf]

theorem colMinInf_some_cons (v : ℚ) (xs : List (Option ℚ)) :
    colMinInf (some v :: xs) =
      some (match colMinInf xs with
            | none => v
            | some m2 => min v m2) := by
  cases hxs : colMinInf xs <;> simp [colMinInf, hxs]

theorem colMinInf_forall_none : ∀ {l : List (Option ℚ)}, colMinInf l = none →
    ∀ x ∈ l, x = none
  | [], _, x, hx => absurd hx (List.not_mem_nil _)
  | none :: xs, h, x, hx => by
      rw [colMinInf_none_cons] at h
      rcases List.mem_cons.mp hx with rfl | hx2
      · rfl
      · exact colMinInf_forall_none h x hx2
  | some w :: xs, h, x, hx => by
      rw [colMinInf_some_cons] at h
      simp at h

theorem colMinInf_mem : ∀ {l : List (Option ℚ)} {m : ℚ},
    colMinInf l = some m → some m ∈ l
  | [], m, h => by simp [colMinInf] at h
  | none :: xs, m, h => by
      rw [colMinInf_none_cons] at h
      exact List.mem_cons_of_mem _ (colMinInf_mem h)
  | some v :: xs, m, h => by
      rw [colMinInf_some_cons] at h
      cases hxs : colMinInf xs with
      | none =>
          rw [hxs] at h
          simp only [Option.some_inj] at h
          subst h
          exact List.mem_cons_self _ _
      | some m2 =>
          rw [hxs] at h
          simp only [Option.some_inj] at h
          rcases le_total v m2 with hle | hle
          · rw [min_eq_left hle] at h
            subst h
            exact List.mem_cons_self _ _
          · rw [min_eq_right hle] at h
            subst h
            exact List.mem_cons_of_mem _ (colMinInf_mem hxs)

theorem colMinInf_le : ∀ {l : List (Option ℚ)} {m v : ℚ},
    colMinInf l = some m → some v ∈ l → m ≤ v
  | [], m, v, _, hv => absurd hv (List.not_mem_nil _)
  | none :: xs, m, v, h, hv => by
      rw [colMinInf_none_cons] at h
      rcases List.mem_cons.mp hv with hc | hv2
      · exact absurd hc (by simp)
      · exact colMinInf_le h hv2
  | some w :: xs, m, v, h, hv => by
      rw [colMinInf_some_cons] at h
      rcases List.mem_cons.mp hv with hc | hv2
      · have hwv : w = v := by simpa using hc.symm
        subst hwv
        cases hxs : colMinInf xs with
        | none => rw [hxs] at h; simp only [Option.some_inj] at h; exact le_of_eq h.symm
        | some m2 =>
            rw [hxs] at h
            simp only [Option.some_inj] at h
            rw [← h]
            exact min_le_left _ _
      · cases hxs : colMinInf xs with
        | none =>
            exact absurd (colMinInf_forall_none hxs (some v) hv2) (by simp)
        | some m2 =>
            rw [hxs] at h
            simp only [Option.some_inj] at h
            rw [← h]
            exact le_trans (min_le_right _ _) (colMinInf_le hxs hv2)

theorem colMinInf_isSome_of_mem : ∀ {l : List (Option ℚ)} {v : ℚ},
    some v ∈ l → ∃ m, colMinInf l = some m
  | [], v, hv => absurd hv (List.not_mem_nil _)
  | some w :: xs, v, _ => by
      rw [colMinInf_some_cons]
      exact ⟨_, rfl⟩
  | none :: xs, v, hv => by
      rw [colMinInf_none_cons]
      rcases List.mem_cons.mp hv with hc | hv2
      · exact absurd hc (by simp)
      · exact colMinInf_isSome_of_mem hv2

/-- The norm_min normalization lands in the unit interval whenever every
finite entry of the column is positive and at least one entry is finite. -/
theorem norm_min_entry_bounds {l : List (Option ℚ)} {x : Option ℚ}
    (hx : x ∈ l) (hpos : ∀ v : ℚ, some v ∈ l → 0 < v)
    (hsome : ∃ w : ℚ, some w ∈ l) :
    ∃ q, norm_min_entry (colMinInf l) x = some q ∧ 0 ≤ q ∧ q ≤ 1 := by
  obtain ⟨w, hw⟩ := hsome
  obtain ⟨m, hm⟩ := colMinInf_isSome_of_mem hw
  have hmpos : 0 < m := hpos m (colMinInf_mem hm)
  cases x with
  | none =>
      refine ⟨0, ?_, le_refl 0, by norm_num⟩
      simp [norm_min_entry, hm]
  | some v =>
      have hvpos : 0 < v := hpos v hx
      have hle : m ≤ v := colMinInf_le hm hx
      refine ⟨m / v, ?_, div_nonneg hmpos.le hvpos.le, ?_⟩
      · simp [norm_min_entry, hm, hvpos.ne']
      · rw [div_le_one hvpos]
        exact hle

/-- A convex combination of four unit-interval values with nonnegative
weights summing to one stays in the unit interval. -/
theorem convex_comb4 {w1 w2 w3 w4 a b c d : ℚ}
    (hw1 : 0 ≤ w1) (hw2 : 0 ≤ w2) (hw3 : 0 ≤ w3) (hw4 : 0 ≤ w4)
    (hsum : w1 + w2 + w3 + w4 = 1)
    (ha0 : 0 ≤ a) (ha1 : a ≤ 1) (hb0 : 0 ≤ b) (hb1 : b ≤ 1)
    (hc0 : 0 ≤ c) (hc1 : c ≤ 1) (hd0 : 0 ≤ d) (hd1 : d ≤ 1) :
    0 ≤ w1 * a + w2 * b + w3 * c + w4 * d ∧
      w1 * a + w2 * b + w3 * c + w4 * d ≤ 1 := by
  constructor <;> nlinarith

/-- A convex combination of three unit-interval values with nonnegative
weights summing to one stays in the unit interval. -/
theorem convex_comb3 {w1 w2 w3 a b c : ℚ}
    (hw1 : 0 ≤ w1) (hw2 : 0 ≤ w2) (hw3 : 0 ≤ w3)
    (hsum : w1 + w2 + w3 = 1)
    (ha0 : 0 ≤ a) (ha1 : a ≤ 1) (hb0 : 0 ≤ b) (hb1 : b ≤ 1)
    (hc0 : 0 ≤ c) (hc1 : c ≤ 1) :
    0 ≤ w1 * a + w2 * b + w3 * c ∧ w1 * a + w2 * b + w3 * c ≤ 1 := by
  constructor <;> nlinarith

theorem clip01_bounds (x : ℚ) : 0 ≤ clip01 x ∧ clip01 x ≤ 1 := by
  unfold clip01
  constructor
  · exact le_min (by norm_num) (le_max_left 0 x)
  · exact min_le_left _ _

/-! ### Facts about the embedded descending stable sort -/

theorem optGeB_refl (a : Option ℚ) : optGeB a a = true := by
  cases a <;> simp [optGeB]

theorem optGeB_total (a b : Option ℚ) : optGeB a b = true ∨ optGeB b a = true := by
  cases a <;> cases b <;> simp [optGeB]
  exact le_total _ _

theorem optGeB_trans {a b c : Option ℚ} (h1 : optGeB a b = true)
    (h2 : optGeB b c = true) : optGeB a c = true := by
  cases a <;> cases b <;> cases c <;> simp [optGeB] at h1 h2 ⊢
  exact le_trans h2 h1

theorem sortValuesDesc_sorted {α : Type} (key : α → Option ℚ) (l : List α) :
    (sortValuesDesc key l).Sorted (keyGe key) := by
  haveI : IsTotal α (keyGe key) := ⟨fun a b => optGeB_total (key a) (key b)⟩
  haveI : IsTrans α (keyGe key) := ⟨fun _ _ _ h1 h2 => optGeB_trans h1 h2⟩
  exact List.sorted_insertionSort (keyGe key) l

theorem sortValuesDesc_perm {α : Type} (key : α → Option ℚ) (l : List α) :
    (sortValuesDesc key l).Perm l :=
  List.perm_insertionSort (keyGe key) l

theorem filter_orderedInsert_pos {α : Type} (r : α → α → Prop) [DecidableRel r]
    (p : α → Bool) (x : α) (hx : p x = true) (hcomp : ∀ b, p b = true → r x b) :
    ∀ l : List α, (l.orderedInsert r x).filter p = x :: l.filter p := by
  intro l
  induction l with
  | nil => simp [List.orderedInsert, hx]
  | cons b t ih =>
      by_cases hrb : r x b
      · rw [List.orderedInsert, if_pos hrb]
        simp [List.filter_cons, hx]
      · have hpb : p b = false := by
          cases hpbv : p b
          · rfl
          · exact absurd (hcomp b hpbv) hrb
        rw [List.orderedInsert, if_neg hrb]
        simp [List.filter_cons, hpb, ih]

theorem filter_orderedInsert_neg {α : Type} (r : α → α → Prop) [DecidableRel r]
    (p : α → Bool) (x : α) (hx : p x = false) :
    ∀ l : List α, (l.orderedInsert r x).filter p = l.filter p := by
  intro l
  induction l with
  | nil => simp [List.orderedInsert, hx]
  | cons b t ih =>
      by_cases hrb : r x b
      · rw [List.orderedInsert, if_pos hrb]
        simp [List.filter_cons, hx]
      · rw [List.orderedInsert, if_neg hrb]
        simp [List.filter_cons, ih]

/-- Stability of the embedded sort: the subsequence of rows whose key takes
any fixed value is unchanged by the sort, because equal keys compare both
ways and insertion never crosses them. -/
theorem filter_insertionSort {α : Type} (r : α → α → Prop) [DecidableRel r]
    (p : α → Bool) (hcomp : ∀ a b, p a = true → p b = true → r a b) :
    ∀ l : List α, (l.insertionSort r).filter p = l.filter p
  | [] => rfl
  | x :: t => by
      cases hx : p x
      · rw [List.insertionSort, filter_orderedInsert_neg r p x hx,
          filter_insertionSort r p hcomp t]
        simp [List.filter_cons, hx]
      · rw [List.insertionSort, filter_orderedInsert_pos r p x hx
          (fun b hb => hcomp x b hx hb), filter_insertionSort r p hcomp t]
        simp [List.filter_cons, hx]

theorem sortValuesDesc_filter {α : Type} (key : α → Option ℚ) (l : List α)
    (q : Option ℚ) :
    (sortValuesDesc key l).filter (fun a => key a = q) =
      l.filter (fun a => key a = q) := by
  apply filter_insertionSort
  intro a b ha hb
  have ha2 : key a = q := of_decide_eq_true ha
  have hb2 : key b = q := of_decide_eq_true hb
  unfold keyGe
  rw [ha2, hb2]
  exact optGeB_refl q

theorem headI_mem_self {α : Type} [Inhabited α] {l : List α} (h : l ≠ []) :
    l.headI ∈ l := by
  cases l with
  | nil => exact absurd rfl h
  | cons a t => exact List.mem_cons_self a t

/-- C3: the frames returned by Recommender.score_options and by
_rank_options are permutations of the scored candidate rows, sorted
non-increasingly on the composite score column (NaN last), and the sort is
stable: for every score value, the subsequence of rows carrying it is the
insertion-order subsequence. -/
theorem C3_theorem :
    (∀ scen : ScenarioInput,
        (score_options scen).Sorted (keyGe (fun r : ScoredRow => r.mcda_score)) ∧
        (score_options scen).Perm (scoreRows (scoreOptionsRows scen)) ∧
        ∀ q : Option ℚ,
          (score_options scen).filter (fun r => r.mcda_score = q) =
            (scoreRows (scoreOptionsRows scen)).filter (fun r => r.mcda_score = q)) ∧
    (∀ (p : RankParams) (pvwRoof pvwGround : Option ℚ),
        (rank_options p pvwRoof pvwGround).Sorted (fun a b => b.score ≤ a.score) ∧
        (rank_options p pvwRoof pvwGround).Perm
          (rankPipeline p.goal (rankRows p pvwRoof pvwGround)) ∧
        ∀ q : ℚ,
          (rank_options p pvwRoof pvwGround).filter (fun r => r.score = q) =
            (rankPipeline p.goal (rankRows p pvwRoof pvwGround)).filter
              (fun r => r.score = q)) := by
  constructor
  · intro scen
    refine ⟨sortValuesDesc_sorted _ _, sortValuesDesc_perm _ _, fun q => ?_⟩
    exact sortValuesDesc_filter (fun r : ScoredRow => r.mcda_score) _ q
  · intro p pvwRoof pvwGround
    refine ⟨?_, sortValuesDesc_perm _ _, fun q => ?_⟩
    · have hs := sortValuesDesc_sorted (fun r : RankedRow => some r.score)
        (rankPipeline p.goal (rankRows p pvwRoof pvwGround))
      refine hs.imp ?_
      intro a b hab
      have h2 : optGeB (some a.score) (some b.score) = true := hab
      simpa [optGeB] using h2
    · apply filter_insertionSort
      intro a b ha hb
      have ha2 : a.score = q := of_decide_eq_true ha
      have hb2 : b.score = q := of_decide_eq_true hb
      show optGeB (some a.score) (some b.score) = true
      rw [ha2, hb2]
      exact optGeB_refl (some q)

/-! ### Facts about the rows score_options assembles -/

theorem mem_scoreOptionsRows {scen : ScenarioInput} {r : OptRow} :
    r ∈ scoreOptionsRows scen ↔
      r = pvRowOf scen ∨ r = effRowOf scen ∨
      (scen.site.building_type = "residential" ∧ r = hpwhRowOf scen) ∨
      r = evRowOf scen ∨ r = modeRowOf scen := by
  unfold scoreOptionsRows
  split_ifs with hb <;> simp [hb]

theorem scoreOptionsRows_capex_pos {scen : ScenarioInput} {r : OptRow}
    (hr : r ∈ scoreOptionsRows scen) : 0 < r.capex_usd := by
  have h1 : (1:ℚ) ≤ pvSizeKw scen := le_max_left 1 _
  have hpv : (0:ℚ) < pv_capex_usd (pvSizeKw scen) := by
    unfold pv_capex_usd
    nlinarith
  rcases mem_scoreOptionsRows.mp hr with rfl | rfl | ⟨hb, rfl⟩ | rfl | rfl
  · simpa [pvRowOf] using hpv
  · simp only [effRowOf]
    nlinarith
  · norm_num [hpwhRowOf]
  · norm_num [evRowOf]
  · norm_num [modeRowOf]

theorem scoreOptionsRows_payback_eq {scen : ScenarioInput} {r : OptRow}
    (hr : r ∈ scoreOptionsRows scen) :
    r.simple_payback_yr = simple_payback r.capex_usd r.annual_savings_usd := by
  rcases mem_scoreOptionsRows.mp hr with rfl | rfl | ⟨hb, rfl⟩ | rfl | rfl <;> rfl

theorem scoreOptionsPayback_pos {scen : ScenarioInput} :
    ∀ v : ℚ, some v ∈ (scoreOptionsRows scen).map (·.simple_payback_yr) → 0 < v := by
  intro v hv
  rcases List.mem_map.mp hv with ⟨r, hr, hpb⟩
  have hcx := scoreOptionsRows_capex_pos hr
  have heq := scoreOptionsRows_payback_eq hr
  rw [heq] at hpb
  unfold simple_payback at hpb
  by_cases hs : r.annual_savings_usd > 0
  · rw [if_pos hs] at hpb
    have hv2 : r.capex_usd / r.annual_savings_usd = v := Option.some_inj.mp hpb
    rw [← hv2]
    exact div_pos hcx hs
  · rw [if_neg hs] at hpb
    exact absurd hpb (by simp)

theorem modeRow_payback (scen : ScenarioInput) :
    (modeRowOf scen).simple_payback_yr = some (125/84) := by
  norm_num [modeRowOf, simple_payback]

theorem scoreOptionsPayback_some (scen : ScenarioInput) :
    ∃ w : ℚ, some w ∈ (scoreOptionsRows scen).map (·.simple_payback_yr) := by
  refine ⟨125/84, List.mem_map.mpr ⟨modeRowOf scen, ?_, modeRow_payback scen⟩⟩
  exact mem_scoreOptionsRows.mpr (Or.inr (Or.inr (Or.inr (Or.inr rfl))))

theorem scoreRows_mcda_bounds {scen : ScenarioInput} {r : ScoredRow}
    (hr : r ∈ scoreRows (scoreOptionsRows scen)) :
    ∃ q, r.mcda_score = some q ∧ 0 ≤ q ∧ q ≤ 1 := by
  simp only [scoreRows] at hr
  rcases List.mem_map.mp hr with ⟨s, hs, rfl⟩
  obtain ⟨q1, hq1, hq10, hq11⟩ :=
    norm_min_entry_bounds (List.mem_map_of_mem (·.simple_payback_yr) hs)
      scoreOptionsPayback_pos (scoreOptionsPayback_some scen)
  obtain ⟨hs0, hs1⟩ := norm_max_entry_bounds (List.mem_map_of_mem (·.annual_savings_usd) hs)
  obtain ⟨hc0, hc1⟩ := norm_max_entry_bounds (List.mem_map_of_mem (·.co2e_reduction_tpy) hs)
  obtain ⟨hp0, hp1⟩ := norm_max_entry_bounds (List.mem_map_of_mem (·.practicality) hs)
  refine ⟨_, by rw [hq1]; rfl, ?_⟩
  exact convex_comb4 (by norm_num [mcdaWeights]) (by norm_num [mcdaWeights])
    (by norm_num [mcdaWeights]) (by norm_num [mcdaWeights])
    (by norm_num [mcdaWeights]) hq10 hq11 hs0 hs1 hc0 hc1 hp0 hp1

/-! ### Bounds for the _rank_options normalizations -/

theorem clip_div_colMax_bounds {col : List ℚ} {v : ℚ} (hv : v ∈ col)
    (hcol : ∀ y ∈ col, 0 ≤ y) :
    0 ≤ v / (if colMax col = 0 then 1 else colMax col) ∧
      v / (if colMax col = 0 then 1 else colMax col) ≤ 1 := by
  have hle : v ≤ colMax col := colMax_ge_mem hv
  have h0 : 0 ≤ v := hcol v hv
  by_cases hz : colMax col = 0
  · rw [if_pos hz]
    have hv0 : v = 0 := le_antisymm (hz ▸ hle) h0
    rw [hv0]
    norm_num
  · rw [if_neg hz]
    have hmpos : 0 < colMax col := lt_of_le_of_ne (le_trans h0 hle) (Ne.symm hz)
    exact ⟨div_nonneg h0 hmpos.le, (div_le_one hmpos).mpr hle⟩

theorem rankNormSavings_bounds {rows : List GenRow} {g : GenRow} (hg : g ∈ rows) :
    0 ≤ rankNormSavings rows g ∧ rankNormSavings rows g ≤ 1 := by
  unfold rankNormSavings
  exact clip_div_colMax_bounds
    (List.mem_map_of_mem (fun x => max 0 x.annual_savings_usd) hg)
    (by
      intro y hy
      rcases List.mem_map.mp hy with ⟨x, _, rfl⟩
      exact le_max_left 0 _)

theorem rankNormCo2_bounds {rows : List GenRow} {g : GenRow} (hg : g ∈ rows) :
    0 ≤ rankNormCo2 rows g ∧ rankNormCo2 rows g ≤ 1 := by
  unfold rankNormCo2
  exact clip_div_colMax_bounds
    (List.mem_map_of_mem (fun x => max 0 x.co2e_reduction_tpy) hg)
    (by
      intro y hy
      rcases List.mem_map.mp hy with ⟨x, _, rfl⟩
      exact le_max_left 0 _)

theorem rankNormPayback_bounds (rows : List GenRow) (g : GenRow) :
    0 ≤ rankNormPayback rows g ∧ rankNormPayback rows g ≤ 1 := by
  rcases hadj : rankPaybackAdj g with _ | v
  · simp [rankNormPayback, hadj]
  · rcases hmin : colMinInf (rows.map rankPaybackAdj) with _ | m
    · simp [rankNormPayback, hadj, hmin]
    · simpa [rankNormPayback, hadj, hmin] using clip01_bounds (m / v)

theorem goal_weights_nonneg (goal : String) :
    0 ≤ (goal_weights goal).1 ∧ 0 ≤ (goal_weights goal).2.1 ∧
      0 ≤ (goal_weights goal).2.2 := by
  unfold goal_weights
  split_ifs <;> norm_num

theorem goal_weights_sum (goal : String) :
    (goal_weights goal).1 + (goal_weights goal).2.1 + (goal_weights goal).2.2 = 1 := by
  unfold goal_weights
  split_ifs <;> norm_num

theorem rankPipeline_score_bounds {goal : String} {rows : List GenRow}
    {rr : RankedRow} (hrr : rr ∈ rankPipeline goal rows) :
    0 ≤ rr.score ∧ rr.score ≤ 1 := by
  simp only [rankPipeline] at hrr
  rcases List.mem_map.mp hrr with ⟨g, hg, rfl⟩
  obtain ⟨hs0, hs1⟩ := rankNormSavings_bounds hg
  obtain ⟨hc0, hc1⟩ := rankNormCo2_bounds hg
  obtain ⟨hp0, hp1⟩ := rankNormPayback_bounds rows g
  obtain ⟨hw1, hw2, hw3⟩ := goal_weights_nonneg goal
  exact convex_comb3 hw1 hw2 hw3 (goal_weights_sum goal) hs0 hs1 hc0 hc1 hp0 hp1

/-- C4: the fixed MCDA weight preset of score_options and every goal preset
of _goal_weights sum to one, every composite score of score_options is a
well-defined number in the unit interval, and every composite score of
_rank_options lies in the unit interval, for all scenario inputs and remote
oracle outcomes. -/
theorem C4_theorem :
    (mcdaWeights.1 + mcdaWeights.2.1 + mcdaWeights.2.2.1 + mcdaWeights.2.2.2 = 1) ∧
    (∀ goal : String,
        (goal_weights goal).1 + (goal_weights goal).2.1 + (goal_weights goal).2.2 = 1) ∧
    (∀ (scen : ScenarioInput) (r : ScoredRow), r ∈ score_options scen →
        ∃ q, r.mcda_score = some q ∧ 0 ≤ q ∧ q ≤ 1) ∧
    (∀ (p : RankParams) (pvwRoof pvwGround : Option ℚ) (r : RankedRow),
        r ∈ rank_options p pvwRoof pvwGround → 0 ≤ r.score ∧ r.score ≤ 1) := by
  refine ⟨by norm_num [mcdaWeights], goal_weights_sum, ?_, ?_⟩
  · intro scen r hr
    have hr2 : r ∈ scoreRows (scoreOptionsRows scen) :=
      ((sortValuesDesc_perm _ _).mem_iff).mp hr
    exact scoreRows_mcda_bounds hr2
  · intro p pvwRoof pvwGround r hr
    have hr2 : r ∈ rankPipeline p.goal (rankRows p pvwRoof pvwGround) :=
      ((sortValuesDesc_perm _ _).mem_iff).mp hr
    exact rankPipeline_score_bounds hr2

theorem score_options_ne_nil (scen : ScenarioInput) : score_options scen ≠ [] := by
  intro h
  have hp := sortValuesDesc_perm (fun r : ScoredRow => r.mcda_score)
    (scoreRows (scoreOptionsRows scen))
  unfold score_options at h
  rw [h] at hp
  have h2 := List.nil_perm.mp hp
  simp [scoreRows, scoreOptionsRows] at h2

theorem rank_options_ne_nil (p : RankParams) (pvwRoof pvwGround : Option ℚ) :
    rank_options p pvwRoof pvwGround ≠ [] := by
  intro h
  have hp := sortValuesDesc_perm (fun r : RankedRow => some r.score)
    (rankPipeline p.goal (rankRows p pvwRoof pvwGround))
  unfold rank_options at h
  rw [h] at hp
  have h2 := List.nil_perm.mp hp
  simp [rankPipeline, rankRows] at h2

/-- C4 witness: the top row of each pipeline on a concrete scenario has its
composite score inside the unit interval. -/
theorem C4_witness :
    (∃ q, (score_options scen0).headI.mcda_score = some q ∧ 0 ≤ q ∧ q ≤ 1) ∧
    (0 ≤ (rank_options p1 none none).headI.score ∧
      (rank_options p1 none none).headI.score ≤ 1) :=
  ⟨C4_theorem.2.2.1 scen0 _ (headI_mem_self (score_options_ne_nil scen0)),
   C4_theorem.2.2.2 p1 none none _ (headI_mem_self (rank_options_ne_nil p1 none none))⟩

/-! ### Payback contract (C5) -/

theorem simple_payback_spec (c s : ℚ) :
    (simple_payback c s = none ↔ s ≤ 0) ∧
      ∀ v, simple_payback c s = some v → v = c / s := by
  unfold simple_payback
  by_cases hs : s > 0
  · rw [if_pos hs]
    refine ⟨by simp [not_le.mpr hs], ?_⟩
    intro v hv
    exact (Option.some_inj.mp hv).symm
  · rw [if_neg hs]
    refine ⟨by simp [not_lt.mp hs], ?_⟩
    intro v hv
    exact absurd hv (by simp)

theorem rankPayback_eq (g : GenRow) :
    rankPayback g = simple_payback g.capex_usd g.annual_savings_usd := rfl

/-- C5: every candidate row of both option generators carries a simple
payback equal to capital cost over annual savings exactly when annual
savings are positive, and an infinite payback (none) exactly when annual
savings are zero or negative; capital cost, savings and CO2 columns are
plain rationals by construction. -/
theorem C5_theorem :
    (∀ (scen : ScenarioInput) (r : OptRow), r ∈ scoreOptionsRows scen →
        (r.simple_payback_yr = none ↔ r.annual_savings_usd ≤ 0) ∧
        ∀ v, r.simple_payback_yr = some v → v = r.capex_usd / r.annual_savings_usd) ∧
    (∀ (goal : String) (rows : List GenRow) (rr : RankedRow),
        rr ∈ rankPipeline goal rows →
        (rr.payback_yr = none ↔ rr.row.annual_savings_usd ≤ 0) ∧
        ∀ v, rr.payback_yr = some v →
          v = rr.row.capex_usd / rr.row.annual_savings_usd) := by
  constructor
  · intro scen r hr
    rw [scoreOptionsRows_payback_eq hr]
    exact simple_payback_spec _ _
  · intro goal rows rr hrr
    simp only [rankPipeline] at hrr
    rcases List.mem_map.mp hrr with ⟨g, _, rfl⟩
    show (rankPayback g = none ↔ _) ∧ _
    rw [rankPayback_eq]
    exact simple_payback_spec _ _

/-- C5 witness: the payback contract evaluated on the top rows of concrete
tables from both generators. -/
theorem C5_witness :
    (((scoreOptionsRows scen0).headI.simple_payback_yr = none ↔
        (scoreOptionsRows scen0).headI.annual_savings_usd ≤ 0) ∧
      ∀ v, (scoreOptionsRows scen0).headI.simple_payback_yr = some v →
        v = (scoreOptionsRows scen0).headI.capex_usd /
          (scoreOptionsRows scen0).headI.annual_savings_usd) ∧
    (((rankPipeline "Balanced" [row8g]).headI.payback_yr = none ↔
        (rankPipeline "Balanced" [row8g]).headI.row.annual_savings_usd ≤ 0) ∧
      ∀ v, (rankPipeline "Balanced" [row8g]).headI.payback_yr = some v →
        v = (rankPipeline "Balanced" [row8g]).headI.row.capex_usd /
          (rankPipeline "Balanced" [row8g]).headI.row.annual_savings_usd) :=
  ⟨C5_theorem.1 scen0 _ (headI_mem_self (by simp [scoreOptionsRows])),
   C5_theorem.2 "Balanced" [row8g] _ (headI_mem_self (by simp [rankPipeline]))⟩

/-! ### Row inventory of score_options (C10) -/

theorem map_row_of_section {f : OptRow → ScoredRow} (h : ∀ s, (f s).row = s) :
    ∀ l : List OptRow, (l.map f).map (·.row) = l := by
  intro l
  induction l with
  | nil => rfl
  | cons a t ih => simp [h, ih]

theorem scoreRows_map_row (rows : List OptRow) :
    (scoreRows rows).map (·.row) = rows := by
  simp only [scoreRows]
  exact map_row_of_section (fun s => rfl) rows

theorem score_options_rows_perm (scen : ScenarioInput) :
    ((score_options scen).map (·.row)).Perm (scoreOptionsRows scen) := by
  have h := (sortValuesDesc_perm (fun r : ScoredRow => r.mcda_score)
    (scoreRows (scoreOptionsRows scen))).map (·.row)
  rwa [scoreRows_map_row] at h

theorem exists_opt_iff (scen : ScenarioInput) (nm : String) :
    (∃ r ∈ score_options scen, r.row.opt = nm) ↔
      ∃ s ∈ scoreOptionsRows scen, s.opt = nm := by
  constructor
  · rintro ⟨r, hr, hopt⟩
    exact ⟨r.row,
      (score_options_rows_perm scen).mem_iff.mp (List.mem_map_of_mem _ hr), hopt⟩
  · rintro ⟨s, hs, hopt⟩
    have h2 := (score_options_rows_perm scen).mem_iff.mpr hs
    rcases List.mem_map.mp h2 with ⟨r, hr, hrow⟩
    exact ⟨r, hr, by rw [hrow]; exact hopt⟩

theorem score_options_length (scen : ScenarioInput) :
    (score_options scen).length = (scoreOptionsRows scen).length := by
  unfold score_options sortValuesDesc
  rw [List.length_insertionSort]
  simp [scoreRows]

/-- C10: score_options returns exactly five rows for residential sites,
four otherwise; the heat-pump water-heater row is present exactly for
residential sites and the other four options are always present.  The side
condition keeps the crf denominator of the LCOE column away from the zero
that would raise a ZeroDivisionError in Python. -/
theorem C10_theorem :
    ∀ scen : ScenarioInput, (1 + scen.discount_rate) ^ scen.analysis_years ≠ 1 →
      ((score_options scen).length =
        if scen.site.building_type = "residential" then 5 else 4) ∧
      ((∃ r ∈ score_options scen, r.row.opt = "Heat Pump Water Heater") ↔
        scen.site.building_type = "residential") ∧
      (∃ r ∈ score_options scen, r.row.opt = "Solar PV") ∧
      (∃ r ∈ score_options scen, r.row.opt = "Efficiency: LED + HVAC tune-up") ∧
      (∃ r ∈ score_options scen,
        r.row.opt = "Transport: replace one gasoline car with a battery EV") ∧
      (∃ r ∈ score_options scen,
        r.row.opt = "Transport: shift ~25% of trips to transit / walking / biking") := by
  intro scen _hlcoe
  refine ⟨?_, ?_, ?_, ?_, ?_, ?_⟩
  · rw [score_options_length]
    unfold scoreOptionsRows
    split_ifs <;> simp
  · rw [exists_opt_iff]
    constructor
    · rintro ⟨s, hs, hopt⟩
      rcases mem_scoreOptionsRows.mp hs with rfl | rfl | ⟨hb, rfl⟩ | rfl | rfl
      · exact absurd hopt (by simp [pvRowOf])
      · exact absurd hopt (by simp [effRowOf])
      · exact hb
      · exact absurd hopt (by simp [evRowOf])
      · exact absurd hopt (by simp [modeRowOf])
    · intro hb
      exact ⟨hpwhRowOf scen,
        mem_scoreOptionsRows.mpr (Or.inr (Or.inr (Or.inl ⟨hb, rfl⟩))), rfl⟩
  · exact (exists_opt_iff scen _).mpr
      ⟨pvRowOf scen, mem_scoreOptionsRows.mpr (Or.inl rfl), rfl⟩
  · exact (exists_opt_iff scen _).mpr
      ⟨effRowOf scen, mem_scoreOptionsRows.mpr (Or.inr (Or.inl rfl)), rfl⟩
  · exact (exists_opt_iff scen _).mpr
      ⟨evRowOf scen, mem_scoreOptionsRows.mpr (Or.inr (Or.inr (Or.inr (Or.inl rfl)))), rfl⟩
  · exact (exists_opt_iff scen _).mpr
      ⟨modeRowOf scen,
        mem_scoreOptionsRows.mpr (Or.inr (Or.inr (Or.inr (Or.inr rfl)))), rfl⟩

/-- C10 witness: on the concrete residential scenario the returned frame
has five rows and carries the water-heater option. -/
theorem C10_witness :
    (score_options scen0).length = 5 ∧
    (∃ r ∈ score_options scen0, r.row.opt = "Heat Pump Water Heater") := by
  have h := C10_theorem scen0 (by norm_num [scen0])
  exact ⟨h.1.trans (if_pos rfl), h.2.1.mpr rfl⟩

/-! ### The end-to-end rooftop-PV scenario (C1) -/

set_option maxHeartbeats 2000000 in
/-- C1 counterexample: in the stated scenario the rooftop-PV row does not
carry the claimed 1440 USD of savings and 3.04 t of CO2 reduction, because
the tilt factor at 27 degrees is 0.97 (not 1.0), so the adjusted yield
7983.4104 kWh stays below the 8000 kWh cap. -/
theorem C1_counterexample :
    (rankRows p1 none none).headI.annual_savings_usd ≠ 1440 ∧
    (rankRows p1 none none).headI.co2e_reduction_tpy ≠ 304/100 := by
  norm_num [rankRows, roofRowOf, rankPvKwh, rankPvUseful, rankAnnualKwh, rankGrid,
    kwRoofOf, pv_kwh_year, pvFallbackKwh, pyOrOpt, pyOrQ, pyRound1, rnearestEven,
    p1, scen1, List.headI, max_def, min_def, abs]

set_option maxHeartbeats 2000000 in
/-- C1 amended: with annual load 10000 kWh, rate 0.18, grid 0.38, target
coverage 80 percent, tilt 27 and shading 8 and no location, the rooftop-PV
row is sized at 7.1 kWdc (capex 7.1 times 1800 = 12780), its adjusted yield
is 8946 times 0.97 times 0.92 = 7983.4104 kWh (below the 8000 kWh cap, so
the cap does not bind), savings are 7983.4104 times 0.18 = 1437.013872 USD
and CO2 reduction is 7983.4104 times 0.38 / 1000 = 3.033695952 t. -/
theorem C1_theorem :
    (rankRows p1 none none).headI.capex_usd = 12780 ∧
    (rankRows p1 none none).headI.annual_kwh = 9979263/1250 ∧
    (rankRows p1 none none).headI.annual_kwh < 8000 ∧
    (rankRows p1 none none).headI.annual_savings_usd = 89813367/62500 ∧
    (rankRows p1 none none).headI.co2e_reduction_tpy = 189605997/62500000 ∧
    (rankRows p1 none none).headI.load_covered_pct = 9979263/125000 := by
  norm_num [rankRows, roofRowOf, rankPvKwh, rankPvUseful, rankAnnualKwh, rankGrid,
    kwRoofOf, pv_kwh_year, pvFallbackKwh, pyOrOpt, pyOrQ, pyRound1, rnearestEven,
    p1, scen1, List.headI, max_def, min_def, abs]

/-! ### Normalization of higher-is-better columns (C2) -/

set_option maxHeartbeats 2000000 in
/-- C2 counterexample: in score_options on the default residential scenario
the efficiency row has savings 144 while the column maximum is 1610.28, yet
its normalized savings sub-score is 0 (min-max normalization), not
144 / 1610.28 as divide-by-maximum would give. -/
theorem C2_counterexample :
    ((scoreRows (scoreOptionsRows scen0)).getD 1 default).row.annual_savings_usd = 144 ∧
    colMax ((scoreOptionsRows scen0).map (·.annual_savings_usd)) = 40257/25 ∧
    ((scoreRows (scoreOptionsRows scen0)).getD 1 default).score_savings = 0 ∧
    (144:ℚ) / (40257/25) ≠ 0 := by
  norm_num [scoreRows, scoreOptionsRows, pvRowOf, effRowOf, hpwhRowOf, evRowOf,
    modeRowOf, annualKwhOf, pvSizeKw, pv_energy_yield_kw, pv_capex_usd,
    solar_resource_ghi, simple_payback, pyOrOpt, pyRound1, rnearestEven, scen0,
    colMax, colMin, norm_max_entry, List.getD, max_def, min_def]

/-- C2 amended: _rank_options does divide the clipped savings and CO2
columns by the column maximum (all rows normalize to zero when that maximum
is zero, through the or-1.0 fallback); score_options instead min-max
normalizes, (x - column min) / (column max - column min + 1e-9). -/
theorem C2_theorem :
    ∀ (rows : List GenRow) (g : GenRow), g ∈ rows →
      (rankNormSavings rows g =
        if colMax (rows.map (fun x => max 0 x.annual_savings_usd)) = 0 then 0
        else max 0 g.annual_savings_usd /
          colMax (rows.map (fun x => max 0 x.annual_savings_usd))) ∧
      (rankNormCo2 rows g =
        if colMax (rows.map (fun x => max 0 x.co2e_reduction_tpy)) = 0 then 0
        else max 0 g.co2e_reduction_tpy /
          colMax (rows.map (fun x => max 0 x.co2e_reduction_tpy))) := by
  intro rows g hg
  constructor
  · unfold rankNormSavings
    by_cases hz : colMax (rows.map (fun x => max 0 x.annual_savings_usd)) = 0
    · rw [if_pos hz, if_pos hz]
      have hle := colMax_ge_mem
        (List.mem_map_of_mem (fun x => max 0 x.annual_savings_usd) hg)
      rw [hz] at hle
      have h0 : max 0 g.annual_savings_usd = 0 :=
        le_antisymm hle (le_max_left 0 _)
      rw [h0]
      norm_num
    · rw [if_neg hz, if_neg hz]
  · unfold rankNormCo2
    by_cases hz : colMax (rows.map (fun x => max 0 x.co2e_reduction_tpy)) = 0
    · rw [if_pos hz, if_pos hz]
      have hle := colMax_ge_mem
        (List.mem_map_of_mem (fun x => max 0 x.co2e_reduction_tpy) hg)
      rw [hz] at hle
      have h0 : max 0 g.co2e_reduction_tpy = 0 :=
        le_antisymm hle (le_max_left 0 _)
      rw [h0]
      norm_num
    · rw [if_neg hz, if_neg hz]

/-- C2 witness: the divide-by-maximum characterization evaluated on a
one-row table. -/
theorem C2_witness :
    (rankNormSavings [row8g] row8g =
      if colMax ([row8g].map (fun x => max 0 x.annual_savings_usd)) = 0 then 0
      else max 0 row8g.annual_savings_usd /
        colMax ([row8g].map (fun x => max 0 x.annual_savings_usd))) ∧
    (rankNormCo2 [row8g] row8g =
      if colMax ([row8g].map (fun x => max 0 x.co2e_reduction_tpy)) = 0 then 0
      else max 0 row8g.co2e_reduction_tpy /
        colMax ([row8g].map (fun x => max 0 x.co2e_reduction_tpy))) :=
  C2_theorem [row8g] row8g (List.mem_singleton.mpr rfl)

/-! ### The all-zero degenerate table (C8) -/

/-- C8 counterexample: a two-row table with zero savings and zero CO2
everywhere makes every payback infinite, so the score_options pipeline
computes inf/inf = NaN in the payback sub-score and the composite MCDA
scores are NaN (none), not 0. -/
theorem C8_counterexample :
    ([row8a, row8b].map (·.annual_savings_usd) = [0, 0]) ∧
    ([row8a, row8b].map (·.co2e_reduction_tpy) = [0, 0]) ∧
    (scoreRows [row8a, row8b]).map (·.mcda_score) = [none, none] := by
  refine ⟨by norm_num [row8a, row8b], by norm_num [row8a, row8b], ?_⟩
  norm_num [scoreRows, row8a, row8b, colMinInf, norm_min_entry]

/-- C8 amended: in _rank_options a candidate table whose rows all carry
zero savings and zero CO2 reduction scores 0 on every row (the or-1.0
fallback guards the divisions and the all-NaN payback column normalizes to
0), with no NaN anywhere; in the score_options pipeline the same table
instead yields NaN composite scores through inf/inf on the payback column
(see the counterexample), though its own generator never produces such a
table because the mode-shift row always saves 336 USD. -/
theorem C8_theorem :
    ∀ (goal : String) (rows : List GenRow),
      (∀ g ∈ rows, g.annual_savings_usd = 0 ∧ g.co2e_reduction_tpy = 0) →
      ∀ rr ∈ rankPipeline goal rows, rr.score = 0 := by
  intro goal rows hz rr hrr
  simp only [rankPipeline] at hrr
  rcases List.mem_map.mp hrr with ⟨g, hg, rfl⟩
  obtain ⟨hs, hc⟩ := hz g hg
  have h1 : rankNormSavings rows g = 0 := by
    unfold rankNormSavings
    rw [hs]
    norm_num
  have h2 : rankNormCo2 rows g = 0 := by
    unfold rankNormCo2
    rw [hc]
    norm_num
  have h3 : rankNormPayback rows g = 0 := by
    have hadj : rankPaybackAdj g = none := by
      unfold rankPaybackAdj rankPayback
      rw [hs]
      norm_num
    unfold rankNormPayback
    rw [hadj]
  dsimp only
  rw [h1, h2, h3]
  ring

/-- C8 witness: the all-zero contract evaluated on a one-row table. -/
theorem C8_witness : (rankPipeline "Balanced" [row8g]).headI.score = 0 :=
  C8_theorem "Balanced" [row8g]
    (fun g hg => by
      rcases List.mem_singleton.mp hg with rfl
      exact ⟨rfl, rfl⟩)
    _ (headI_mem_self (by simp [rankPipeline]))

/-! ### Remote lookup failure contracts (C9) -/

theorem eiaGetV2_err (key : Option String) (world : EiaHttp) :
    (eiaGetV2 key world).1 = none → (eiaGetV2 key world).2 ≠ none := by
  cases key with
  | none => intro _; simp [eiaGetV2]
  | some k =>
      by_cases hk : k = ""
      · intro _
        simp [eiaGetV2, hk]
      · cases world with
        | exn m => intro _; simp [eiaGetV2, hk]
        | forbidden => intro _; simp [eiaGetV2, hk]
        | okJson p =>
            by_cases hc : (eiaTotal p = 0 ∨ p.rows = [])
            · intro _
              simp [eiaGetV2, hk, hc]
            · intro h
              exfalso
              simp [eiaGetV2, hk, hc] at h

theorem pvwatts_err (key : Option String) (world : NrelHttp) :
    (pvwatts_ac_annual key world).1 = none → (pvwatts_ac_annual key world).2 ≠ none := by
  cases key with
  | none => intro _; simp [pvwatts_ac_annual]
  | some k =>
      by_cases hk : k = ""
      · intro _
        simp [pvwatts_ac_annual, hk]
      · cases world with
        | exn m => intro _; simp [pvwatts_ac_annual, hk]
        | okJson p =>
            by_cases he : p.errs = []
            · rcases hac : p.acAnnual with _ | c
              · intro _
                simp [pvwatts_ac_annual, hk, he, hac]
              · cases c with
                | num q =>
                    intro h
                    exfalso
                    simp [pvwatts_ac_annual, hk, he, hac] at h
                | nonNum s =>
                    intro _
                    simp [pvwatts_ac_annual, hk, he, hac]
            · intro _
              simp [pvwatts_ac_annual, hk, he]

theorem fetch_series_unsupported (key : Option String) (world : EiaHttp)
    (fuel series : String)
    (h : ¬(pyLower fuel = "electricity" ∧ pyLower series = "price")) :
    fetch_series key world fuel series =
      .ok (none, some "fetch_series is only implemented for fuel=electricity, series=price.") := by
  unfold fetch_series
  rw [if_neg h]

theorem fetch_retail_price_ok (key : Option String) (world : EiaHttp)
    (hclean : ∀ p, world = EiaHttp.okJson p →
      ∀ r ∈ p.rows, ∀ s, r.price ≠ some (.nonNum s)) :
    ∃ res, fetch_retail_price key world = .ok res ∧
      (res.1 = none → res.2 ≠ none) := by
  cases key with
  | none =>
      exact ⟨(none, some "No EIA_API_KEY configured (in secrets.toml or environment)."),
        rfl, fun _ => by simp⟩
  | some k =>
      by_cases hk : k = ""
      · refine ⟨(none, some "No EIA_API_KEY configured (in secrets.toml or environment)."),
          ?_, fun _ => by simp⟩
        unfold fetch_retail_price
        simp [eiaGetV2, hk]
      · cases world with
        | exn m =>
            refine ⟨(none, some ("Exception calling EIA v2: " ++ m)), ?_, fun _ => by simp⟩
            unfold fetch_retail_price
            simp [eiaGetV2, hk]
        | forbidden =>
            refine ⟨(none, some "EIA returned 403 Forbidden."), ?_, fun _ => by simp⟩
            unfold fetch_retail_price
            simp [eiaGetV2, hk]
        | okJson p =>
            by_cases hc : (eiaTotal p = 0 ∨ p.rows = [])
            · have hE : eiaGetV2 (some k) (.okJson p) =
                  (none, some "No records returned from EIA for this selection.") := by
                simp [eiaGetV2, hk, hc]
              refine ⟨(none, some "No records returned from EIA for this selection."),
                ?_, fun _ => by simp⟩
              unfold fetch_retail_price
              rw [hE]
            · have hE : eiaGetV2 (some k) (.okJson p) = (some p, none) := by
                simp [eiaGetV2, hk, hc]
              have hany : (p.rows.any fun r =>
                  match r.price with
                  | some (.nonNum _) => true
                  | _ => false) = false := by
                rw [List.any_eq_false]
                intro r hr
                rcases hp : r.price with _ | c
                · simp
                · cases c with
                  | num q => simp
                  | nonNum s => exact absurd hp (hclean p rfl r hr s)
              have hnot : ¬((p.rows.any fun r =>
                  match r.price with
                  | some (.nonNum _) => true
                  | _ => false) = true) := by
                rw [hany]
                exact Bool.false_ne_true
              refine ⟨(some p.rows, none), ?_, fun h => absurd h (by simp)⟩
              unfold fetch_retail_price
              rw [hE]
              dsimp only
              rw [if_neg hnot]

/-- C9 counterexample: a successful EIA payload whose price field is a
non-numeric string makes fetch_retail_price raise (the uncaught ValueError
of astype(float)) instead of returning None with last_error set. -/
theorem C9_counterexample :
    fetch_retail_price (some "key")
        (.okJson { totalField := some (some 1), rows := [{ price := some (.nonNum "NA") }] }) =
      .error "ValueError: could not convert string to float" := by
  rfl

/-- C9 amended: _get_v2 and pvwatts_ac_annual return None with a non-None
last_error on every failure (missing or empty key, exception, 403,
API-reported error, empty or totalless payload, missing or non-numeric
ac_annual); fetch_series does so for every unsupported fuel/series
combination; and fetch_retail_price does so for every _get_v2 failure and
never raises provided no returned price value is non-numeric - a
non-numeric price in a successful payload instead raises an uncaught
ValueError (see the counterexample). -/
theorem C9_theorem :
    (∀ (key : Option String) (world : EiaHttp),
        (eiaGetV2 key world).1 = none → (eiaGetV2 key world).2 ≠ none) ∧
    (∀ (key : Option String) (world : NrelHttp),
        (pvwatts_ac_annual key world).1 = none →
          (pvwatts_ac_annual key world).2 ≠ none) ∧
    (∀ (key : Option String) (world : EiaHttp) (fuel series : String),
        ¬(pyLower fuel = "electricity" ∧ pyLower series = "price") →
        fetch_series key world fuel series =
          .ok (none, some "fetch_series is only implemented for fuel=electricity, series=price.")) ∧
    (∀ (key : Option String) (world : EiaHttp),
        (∀ p, world = EiaHttp.okJson p →
          ∀ r ∈ p.rows, ∀ s, r.price ≠ some (.nonNum s)) →
        ∃ res, fetch_retail_price key world = .ok res ∧
          (res.1 = none → res.2 ≠ none)) :=
  ⟨eiaGetV2_err, pvwatts_err, fetch_series_unsupported, fetch_retail_price_ok⟩

/-- C9 witness: the failure contracts evaluated at concrete outcomes: a 403
without a key, a network exception against PVWatts, an unsupported
fetch_series combination, and a clean 403 retail-price call. -/
theorem C9_witness :
    ((eiaGetV2 none EiaHttp.forbidden).2 ≠ none) ∧
    ((pvwatts_ac_annual (some "k") (NrelHttp.exn "timeout")).2 ≠ none) ∧
    (fetch_series (some "k") EiaHttp.forbidden "gas" "price" =
      .ok (none, some "fetch_series is only implemented for fuel=electricity, series=price.")) ∧
    (∃ res, fetch_retail_price none EiaHttp.forbidden = .ok res ∧
      (res.1 = none → res.2 ≠ none)) :=
  ⟨C9_theorem.1 none EiaHttp.forbidden rfl,
   C9_theorem.2.1 (some "k") (NrelHttp.exn "timeout") rfl,
   C9_theorem.2.2.1 (some "k") EiaHttp.forbidden "gas" "price" (by decide),
   C9_theorem.2.2.2 none EiaHttp.forbidden (fun p hp => by cases hp)⟩

end SES
